import Mathlib

/-!
Verification of the Wikipedia outline service.

This file gives a shallow embedding, in Lean, of the repository's core logic:

* `app/services/wikipedia.py` — URL construction and heading extraction,
* `app/services/outline.py` — Markdown outline formatting,
* `app/core/cache.py` — the file-based URL cache,
* `app/api/routes.py` — the `/api/outline` request handler,

together with theorems settling the specification's claims about them.

Python string primitives (`str.title`, `str.lower`, `str.strip`,
`str.replace`, substring tests, `str.join`) are embedded as executable
Lean functions over `List Char`, faithful to CPython's behaviour on the
ASCII inputs this service manipulates.  The parsed HTML document produced
by `lxml.html.fromstring` is embedded as an ordinary rose tree: the
extraction claims are settled at the level of the parsed document tree,
which is the data the extractor in the source actually walks.
-/

/-! ## Python string primitives -/

/-- Whitespace in the sense of Python `str.strip()` (the ASCII whitespace
characters: space, tab, newline, carriage return, vertical tab, form feed). -/
def pyIsSpace (c : Char) : Bool :=
  c = ' ' || c = '\t' || c = '\n' || c = '\r' || c = '\x0b' || c = '\x0c'

/-- `str.strip()` on a list of characters: drop whitespace from both ends. -/
def pyStripL (l : List Char) : List Char :=
  ((l.dropWhile pyIsSpace).reverse.dropWhile pyIsSpace).reverse

/-- Python `str.strip()`. -/
def pyStrip (s : String) : String :=
  ⟨pyStripL s.data⟩

/-- Python `str.lower()` (ASCII). -/
def pyLower (s : String) : String :=
  ⟨s.data.map Char.toLower⟩

/-- Python `'[edit]' in text`: does the character list contain the literal
substring `[edit]`? -/
def hasEdit : List Char → Bool
  | '[' :: 'e' :: 'd' :: 'i' :: 't' :: ']' :: _ => true
  | _ :: cs => hasEdit cs
  | [] => false

/-- Python `text.replace('[edit]', '')`: delete every (left-to-right,
non-overlapping) occurrence of the literal substring `[edit]`. -/
def removeEdit : List Char → List Char
  | '[' :: 'e' :: 'd' :: 'i' :: 't' :: ']' :: rest => removeEdit rest
  | c :: cs => c :: removeEdit cs
  | [] => []

/-- Python `str.title()` (ASCII): the `Bool` argument records whether the
previous character was a letter; a letter after a non-letter is uppercased,
a letter after a letter is lowercased, non-letters pass through. -/
def pyTitleAux : Bool → List Char → List Char
  | _, [] => []
  | b, c :: cs =>
    (if c.isAlpha then (if b then c.toLower else c.toUpper) else c) :: pyTitleAux c.isAlpha cs

/-- Python `str.title()`. -/
def pyTitle (s : String) : String :=
  ⟨pyTitleAux false s.data⟩

/-- Python `country.replace(" ", "_")`: the pattern being a single character,
this is a character-wise map. -/
def pyReplaceSpaceUnderscore (s : String) : String :=
  ⟨s.data.map (fun c => if c = ' ' then '_' else c)⟩

/-- Python `sep.join(lines)`. -/
def pyJoin (sep : String) : List String → String
  | [] => ""
  | [x] => x
  | x :: y :: xs => x ++ sep ++ pyJoin sep (y :: xs)

/-! ## `WikipediaService.construct_url` (`app/services/wikipedia.py`) -/

/-- `WikipediaService.BASE_URL`. -/
def BASE_URL : String := "https://en.wikipedia.org/wiki/"

/-- `WikipediaService.construct_url`: replace spaces with underscores,
title-case, and append to the base URL. -/
def construct_url (country : String) : String :=
  BASE_URL ++ pyTitle (pyReplaceSpaceUnderscore country)

/-! ## `OutlineService` (`app/services/outline.py`) -/

/-- `OutlineService.generate_markdown`: `""` for no headings, otherwise the
lines `"#" * level + " " + text` joined by blank lines. -/
def generate_markdown (headings : List (Nat × String)) : String :=
  if headings = [] then ""
  else pyJoin "\n\n" (headings.map (fun h => String.mk (List.replicate h.1 '#') ++ " " ++ h.2))

/-- `OutlineService.create_outline_with_header`: a title header naming the
title-cased country, then the generated Markdown body. -/
def create_outline_with_header (country : String) (headings : List (Nat × String)) : String :=
  let markdown := generate_markdown headings
  let header := "# Wikipedia Outline: " ++ pyTitle country ++ "\n\n"
  header ++ markdown

/-- The output format as the specification words it: a level-1 title line with
the title-cased country, a blank line, then the heading lines joined by blank
lines.  (Spec-side definition, for comparison with the code-side
`create_outline_with_header`.) -/
def outlineSpecFormat (country : String) (headings : List (Nat × String)) : String :=
  "# Wikipedia Outline: " ++ pyTitle country ++ "\n\n" ++
    pyJoin "\n\n" (headings.map (fun h => String.mk (List.replicate h.1 '#') ++ " " ++ h.2))

/-! ## Theorems: formatter and URL constructor -/

/-- **C7.** The formatter output is the level-1 title line
`"# Wikipedia Outline: "` plus the title-cased country, a blank line, then the
heading lines (`level`-many `'#'`, a space, the text) joined by a blank line;
concretely `create_outline_with_header "india" [(1,"India"),(2,"Etymology")]`
is `"# Wikipedia Outline: India\n\n# India\n\n## Etymology"`, and for the
empty heading list the result is just the title block followed by an empty
body. -/
theorem create_outline_with_header_spec :
    (∀ (country : String) (headings : List (Nat × String)),
        create_outline_with_header country headings = outlineSpecFormat country headings)
    ∧ create_outline_with_header "india" [(1, "India"), (2, "Etymology")] =
        "# Wikipedia Outline: India\n\n# India\n\n## Etymology"
    ∧ (∀ country : String,
        create_outline_with_header country [] = "# Wikipedia Outline: " ++ pyTitle country ++ "\n\n") := by
  refine ⟨fun country headings => ?_, by decide,
    fun country => by simp [create_outline_with_header, generate_markdown]⟩
  cases headings with
  | nil => simp [create_outline_with_header, generate_markdown, outlineSpecFormat, pyJoin]
  | cons h t =>
    simp [create_outline_with_header, generate_markdown, outlineSpecFormat, String.append_assoc]

/-- **C8.** `construct_url` is a pure function that replaces each space in the
country name with an underscore, title-cases the result, and appends it to the
fixed base `"https://en.wikipedia.org/wiki/"`; in particular
`construct_url "united states"` ends in `"/United_States"` and
`construct_url "India"` ends in `"/India"`. -/
theorem construct_url_spec :
    (∀ country : String,
        construct_url country =
          "https://en.wikipedia.org/wiki/" ++ pyTitle (pyReplaceSpaceUnderscore country))
    ∧ construct_url "united states" = "https://en.wikipedia.org/wiki/United_States"
    ∧ List.isSuffixOf "/United_States".data (construct_url "united states").data = true
    ∧ construct_url "India" = "https://en.wikipedia.org/wiki/India"
    ∧ List.isSuffixOf "/India".data (construct_url "India").data = true :=
  ⟨fun _ => rfl, by decide, by decide, by decide, by decide⟩

/-- Interior letters: in `pyTitleAux b l`, a letter immediately preceded by
another letter is mapped to its lowercase form. -/
theorem pyTitleAux_lower_of_alpha_pred (l : List Char) :
    ∀ (b : Bool) (i : Nat) (ci ci1 : Char), l[i]? = some ci → l[i + 1]? = some ci1 →
      ci.isAlpha = true → ci1.isAlpha = true →
      (pyTitleAux b l)[i + 1]? = some ci1.toLower := by
  induction l with
  | nil => intro b i ci ci1 h1 h2 ha1 ha2; simp at h1
  | cons c cs ih =>
    intro b i ci ci1 h1 h2 ha1 ha2
    cases i with
    | zero =>
      simp at h1
      subst h1
      cases cs with
      | nil => simp at h2
      | cons d ds =>
        simp at h2
        subst h2
        simp [pyTitleAux, ha1, ha2]
    | succ j =>
      simp at h1 h2
      have := ih c.isAlpha j ci ci1 h1 h2 ha1 ha2
      simpa [pyTitleAux] using this

/-- **C10.** `construct_url` lowercases every letter that is not at the start
of an underscore-delimited word (Python `str.title` semantics), not merely
capitalizing first letters: `construct_url "USA"` ends in `"/Usa"`, and in
general any letter of the underscore-joined country name that is immediately
preceded by another letter appears lowercased in the title-cased URL
component. -/
theorem construct_url_lowercases_interior :
    construct_url "USA" = "https://en.wikipedia.org/wiki/Usa"
    ∧ (∀ (country : String) (i : Nat) (ci ci1 : Char),
        (pyReplaceSpaceUnderscore country).data[i]? = some ci →
        (pyReplaceSpaceUnderscore country).data[i + 1]? = some ci1 →
        ci.isAlpha = true → ci1.isAlpha = true →
        (pyTitle (pyReplaceSpaceUnderscore country)).data[i + 1]? = some ci1.toLower) := by
  refine ⟨by decide, fun country i ci ci1 h1 h2 ha1 ha2 => ?_⟩
  exact pyTitleAux_lower_of_alpha_pred (pyReplaceSpaceUnderscore country).data false i ci ci1 h1 h2 ha1 ha2

/-- Witness for C10 at a concrete input: in `construct_url "USA"` the letter
`'S'` follows the letter `'U'`, so it is lowercased. -/
theorem construct_url_lowercases_interior_witness :
    (pyTitle (pyReplaceSpaceUnderscore "USA")).data[1]? = some ('S'.toLower) :=
  construct_url_lowercases_interior.2 "USA" 0 'U' 'S' (by decide) (by decide) (by decide) (by decide)

/-! ## The parsed HTML document (`lxml` tree) and `WikipediaService.extract_headings` -/

/-- A parsed HTML document node, as produced by `lxml.html.fromstring`:
either a text node or an element with a (lowercased, per the HTML parser)
tag and an ordered list of children. -/
inductive Node where
  | text (s : String) : Node
  | elem (tag : String) (children : List Node) : Node

mutual

/-- `element.text_content()` from lxml: the concatenation of all descendant
text nodes, in document order. -/
def textContent : Node → String
  | .text s => s
  | .elem _ cs => textContentList cs

/-- `text_content` concatenated over a list of sibling nodes. -/
def textContentList : List Node → String
  | [] => ""
  | n :: ns => textContent n ++ textContentList ns

end

/-- The tag set selected by the XPath query
`'//h1 | //h2 | //h3 | //h4 | //h5 | //h6'`. -/
def isHeadingTag (t : String) : Bool :=
  t = "h1" || t = "h2" || t = "h3" || t = "h4" || t = "h5" || t = "h6"

mutual

/-- `tree.xpath('//h1 | //h2 | //h3 | //h4 | //h5 | //h6')`: all heading
elements of the document, in document order (left-to-right, top-to-bottom
pre-order tree walk — the order lxml returns for this query). -/
def xpathHeadings : Node → List Node
  | .text _ => []
  | .elem t cs => (if isHeadingTag t then [Node.elem t cs] else []) ++ xpathHeadingsList cs

/-- `xpathHeadings` over a list of sibling subtrees, left to right. -/
def xpathHeadingsList : List Node → List Node
  | [] => []
  | n :: ns => xpathHeadings n ++ xpathHeadingsList ns

end

mutual

/-- The number of heading elements in a document tree. -/
def headingCount : Node → Nat
  | .text _ => 0
  | .elem t cs => (if isHeadingTag t then 1 else 0) + headingCountList cs

/-- `headingCount` summed over a list of sibling subtrees. -/
def headingCountList : List Node → Nat
  | [] => 0
  | n :: ns => headingCount n + headingCountList ns

end

/-- `int(tag_name[1])` for the tags selected by the heading query: the numeric
level encoded in the tag's second character. -/
def headingLevel (tag_name : String) : Nat :=
  match tag_name.data with
  | _ :: d :: _ => d.toNat - '0'.toNat
  | _ => 0

/-- The loop body of `WikipediaService.extract_headings` for one matched
heading element: lowercase the tag, read the level from the tag, take the
stripped text content, and — if the text is non-empty and does not contain
`'[edit]'` — emit `(level, text.replace('[edit]', '').strip())`; otherwise
emit nothing. -/
def processNode : Node → Option (Nat × String)
  | .text _ => none
  | .elem tag cs =>
    let tag_name := pyLower tag
    let level := headingLevel tag_name
    let text := pyStrip (textContent (.elem tag cs))
    if text ≠ "" ∧ hasEdit text.data = false then
      some (level, pyStrip ⟨removeEdit text.data⟩)
    else
      none

/-- `WikipediaService.extract_headings`, applied to the parsed document tree:
process the heading elements in document order, keeping the survivors. -/
def extract_headings (tree : Node) : List (Nat × String) :=
  (xpathHeadings tree).filterMap processNode

/-- A heading element is discarded *in the sense of the specification's words*
when its text is empty or edit-only: stripping the text, removing `'[edit]'`
and re-trimming leaves nothing.  (Spec-side definition, for comparison with
the discard condition the code actually applies.) -/
def specDiscarded (n : Node) : Bool :=
  pyStrip ⟨removeEdit (pyStrip (textContent n)).data⟩ = ""

/-- The number of heading elements of the document that the specification says
are discarded (empty or edit-only text). -/
def specDiscardCount (tree : Node) : Nat :=
  ((xpathHeadings tree).filter specDiscarded).length

/-! ## Lemmas about the Python string primitives -/

/-- If a character list contains no occurrence of `[edit]`, then deleting
`[edit]` occurrences leaves it unchanged. -/
theorem removeEdit_of_not_hasEdit (l : List Char) (h : hasEdit l = false) :
    removeEdit l = l := by
  induction l using removeEdit.induct with
  | case1 rest ih => simp [hasEdit] at h
  | case2 c cs hne ih =>
    rw [hasEdit] at h
    · rw [removeEdit]
      · rw [ih h]
      · exact hne
    · exact hne
  | case3 => rfl

/-- The first character surviving a `dropWhile pyIsSpace` is not whitespace. -/
theorem pyIsSpace_head_false {l : List Char} {c : Char} {cs : List Char}
    (hl : l.dropWhile pyIsSpace = c :: cs) : pyIsSpace c = false := by
  induction l with
  | nil => simp [List.dropWhile] at hl
  | cons d ds ih =>
    rw [List.dropWhile_cons] at hl
    by_cases hd : pyIsSpace d = true
    · rw [if_pos hd] at hl
      exact ih hl
    · rw [if_neg hd] at hl
      cases hl
      simpa using hd

/-- Stripping whitespace from both ends is idempotent. -/
theorem pyStripL_idem (l : List Char) : pyStripL (pyStripL l) = pyStripL l := by
  have hrrev : (pyStripL l).reverse = (l.dropWhile pyIsSpace).reverse.dropWhile pyIsSpace := by
    simp [pyStripL]
  have hdr : (pyStripL l).dropWhile pyIsSpace = pyStripL l := by
    cases hcase : pyStripL l with
    | nil => simp
    | cons c cs =>
      have hsuf : (pyStripL l).reverse <:+ (l.dropWhile pyIsSpace).reverse := by
        rw [hrrev]
        exact List.dropWhile_suffix pyIsSpace
      obtain ⟨t, ht⟩ := hsuf
      have haeq : pyStripL l ++ t.reverse = l.dropWhile pyIsSpace := by
        have h2 := congrArg List.reverse ht
        simpa [List.reverse_append] using h2
      rw [hcase] at haeq
      have hpc : pyIsSpace c = false := pyIsSpace_head_false haeq.symm
      rw [List.dropWhile_cons, if_neg (by simp [hpc])]
  calc pyStripL (pyStripL l)
      = ((pyStripL l).reverse.dropWhile pyIsSpace).reverse := by rw [pyStripL, hdr]
    _ = (((l.dropWhile pyIsSpace).reverse.dropWhile pyIsSpace).dropWhile pyIsSpace).reverse := by
        rw [hrrev]
    _ = ((l.dropWhile pyIsSpace).reverse.dropWhile pyIsSpace).reverse := by
        rw [List.dropWhile_idempotent]
    _ = pyStripL l := rfl

/-- `str.strip()` is idempotent. -/
theorem pyStrip_idem (s : String) : pyStrip (pyStrip s) = pyStrip s := by
  show String.mk (pyStripL (pyStripL s.data)) = String.mk (pyStripL s.data)
  rw [pyStripL_idem]

/-! ## Lemmas about the heading walk -/

mutual

theorem shape_of_mem_xpathHeadings :
    ∀ (n m : Node), m ∈ xpathHeadings n →
      ∃ tag cs, m = Node.elem tag cs ∧ isHeadingTag tag = true
  | .text _, m, h => by simp [xpathHeadings] at h
  | .elem t cs, m, h => by
    rw [xpathHeadings] at h
    rcases List.mem_append.mp h with h1 | h2
    · by_cases ht : isHeadingTag t = true
      · rw [if_pos ht] at h1
        simp at h1
        exact ⟨t, cs, h1, ht⟩
      · rw [if_neg ht] at h1
        simp at h1
    · exact shape_of_mem_xpathHeadingsList cs m h2

theorem shape_of_mem_xpathHeadingsList :
    ∀ (ns : List Node) (m : Node), m ∈ xpathHeadingsList ns →
      ∃ tag cs, m = Node.elem tag cs ∧ isHeadingTag tag = true
  | [], m, h => by simp [xpathHeadingsList] at h
  | n :: ns, m, h => by
    rw [xpathHeadingsList] at h
    rcases List.mem_append.mp h with h1 | h2
    · exact shape_of_mem_xpathHeadings n m h1
    · exact shape_of_mem_xpathHeadingsList ns m h2

end

mutual

theorem length_xpathHeadings :
    ∀ n : Node, (xpathHeadings n).length = headingCount n
  | .text _ => rfl
  | .elem t cs => by
    rw [xpathHeadings, headingCount, List.length_append, length_xpathHeadingsList cs]
    by_cases ht : isHeadingTag t = true
    · rw [if_pos ht, if_pos ht]
      simp
    · rw [if_neg ht, if_neg ht]
      simp

theorem length_xpathHeadingsList :
    ∀ ns : List Node, (xpathHeadingsList ns).length = headingCountList ns
  | [] => rfl
  | n :: ns => by
    rw [xpathHeadingsList, headingCountList, List.length_append,
      length_xpathHeadings n, length_xpathHeadingsList ns]

end

/-! ## Theorems: heading extraction -/

/-- A document with no heading elements yields an empty extraction: the
heading walk visits nothing, so the loop appends nothing. -/
theorem extract_headings_eq_nil_of_headingCount_zero (t : Node) (h : headingCount t = 0) :
    extract_headings t = [] := by
  have hlen := length_xpathHeadings t
  rw [h] at hlen
  have hnil : xpathHeadings t = [] := List.eq_nil_of_length_eq_zero hlen
  rw [extract_headings, hnil]
  rfl

/-- Models `lxml.html.fromstring` as called at `wikipedia.py:54`, keeping the
one failure mode that matters here: an empty or all-whitespace input has no
root element, and the call raises `lxml.etree.ParserError("Document is
empty")`.  Any other input is parsed (libxml2's HTML parser recovers from
arbitrary markup); the document tree it produces is given by the `parse`
argument, the HTML parsing algorithm itself being library code. -/
def fromstring (parse : String → Node) (html_content : String) : Except String Node :=
  if pyStrip html_content = "" then Except.error "Document is empty"
  else Except.ok (parse html_content)

/-- `WikipediaService.extract_headings` on the raw HTML string, including the
`tree = html.fromstring(html_content)` parse step: the heading list, or the
parser error that call raises. -/
def extract_headings_of_string (parse : String → Node) (html_content : String) :
    Except String (List (Nat × String)) :=
  match fromstring parse html_content with
  | .error e => .error e
  | .ok tree => .ok (extract_headings tree)

/-- A fixed parse behaviour for the theorems below: every document parses to a
headingless paragraph tree.  (On whitespace-only input `fromstring` rejects
the document before consulting it, so its value is irrelevant there.) -/
def demoParse : String → Node :=
  fun _ => Node.elem "html" [Node.elem "body" [Node.elem "p" [Node.text "plain"]]]

/-- **C3 (counterexample to the original claim).** On the all-whitespace input
`"  \n  "`, `extract_headings` does not return the empty list: the
`html.fromstring` call raises `ParserError("Document is empty")` before the
heading walk begins. -/
theorem extract_headings_raises_on_whitespace :
    extract_headings_of_string demoParse "  \n  " = Except.error "Document is empty"
    ∧ extract_headings_of_string demoParse "  \n  " ≠ Except.ok [] := by
  have heq : extract_headings_of_string demoParse "  \n  " =
      Except.error "Document is empty" := rfl
  refine ⟨heq, fun h => ?_⟩
  rw [heq] at h
  exact Except.noConfusion h

/-- **C3 (amended).** For every HTML input string that parses (it is not empty
or all-whitespace) and whose document contains no heading elements,
`extract_headings` returns the empty list and raises no error; an empty or
all-whitespace input instead raises the parser's "Document is empty" error at
the parse step. -/
theorem extract_headings_str_nil_of_no_headings :
    (∀ (parse : String → Node) (html_content : String),
        pyStrip html_content ≠ "" → headingCount (parse html_content) = 0 →
        extract_headings_of_string parse html_content = Except.ok [])
    ∧ (∀ (parse : String → Node) (html_content : String),
        pyStrip html_content = "" →
        extract_headings_of_string parse html_content =
          Except.error "Document is empty") := by
  constructor
  · intro parse html_content hne h0
    rw [extract_headings_of_string, fromstring, if_neg hne]
    show Except.ok (extract_headings (parse html_content)) = Except.ok ([] : List (Nat × String))
    rw [extract_headings_eq_nil_of_headingCount_zero (parse html_content) h0]
  · intro parse html_content he
    rw [extract_headings_of_string, fromstring, if_pos he]

/-- Witness for the amended C3 at concrete inputs: a non-empty headingless
document yields `Except.ok []`, and an all-whitespace document yields the
parser error. -/
theorem extract_headings_str_nil_of_no_headings_witness :
    extract_headings_of_string demoParse "<p>plain</p>" = Except.ok []
    ∧ extract_headings_of_string demoParse " " = Except.error "Document is empty" :=
  ⟨extract_headings_str_nil_of_no_headings.1 demoParse "<p>plain</p>" (by decide) (by decide),
   extract_headings_str_nil_of_no_headings.2 demoParse " " (by decide)⟩

/-- **C6.** Every `(level, text)` pair produced by `extract_headings`
satisfies: `level` is between 1 and 6, `text` is non-empty, and `text`
contains no occurrence of the substring `"[edit]"`. -/
theorem extract_headings_invariant (t : Node) (level : Nat) (text : String)
    (h : (level, text) ∈ extract_headings t) :
    1 ≤ level ∧ level ≤ 6 ∧ text ≠ "" ∧ hasEdit text.data = false := by
  rw [extract_headings] at h
  rcases List.mem_filterMap.mp h with ⟨m, hm, hp⟩
  obtain ⟨tag, cs, rfl, htag⟩ := shape_of_mem_xpathHeadings t m hm
  rw [processNode] at hp
  split at hp
  case isFalse => exact absurd hp (by simp)
  case isTrue hcond =>
    obtain ⟨hne, hed⟩ := hcond
    have hlv : level = headingLevel (pyLower tag) ∧
        text = pyStrip ⟨removeEdit (pyStrip (textContent (Node.elem tag cs))).data⟩ := by
      have := Option.some.inj hp
      exact ⟨(Prod.mk.injEq _ _ _ _ ▸ this).1.symm, (Prod.mk.injEq _ _ _ _ ▸ this).2.symm⟩
    obtain ⟨hlev, htext⟩ := hlv
    have htext' : text = pyStrip (textContent (Node.elem tag cs)) := by
      rw [htext, removeEdit_of_not_hasEdit _ hed]
      exact pyStrip_idem (textContent (Node.elem tag cs))
    have hbounds : 1 ≤ headingLevel (pyLower tag) ∧ headingLevel (pyLower tag) ≤ 6 := by
      rw [isHeadingTag] at htag
      simp only [Bool.or_eq_true, decide_eq_true_eq] at htag
      rcases htag with ((((h | h) | h) | h) | h) | h <;> subst h <;> decide
    refine ⟨?_, ?_, ?_, ?_⟩
    · rw [hlev]
      exact hbounds.1
    · rw [hlev]
      exact hbounds.2
    · rw [htext']
      exact hne
    · rw [htext']
      exact hed

/-- Witness for C6: a document with one `h2` heading whose text strips to
`"History"` yields the pair `(2, "History")`, which satisfies the
invariant. -/
theorem extract_headings_invariant_witness :
    1 ≤ 2 ∧ 2 ≤ 6 ∧ ("History" : String) ≠ "" ∧ hasEdit ("History" : String).data = false :=
  extract_headings_invariant
    (Node.elem "html" [Node.elem "body" [Node.elem "h2" [Node.text " History "]]])
    2 "History" (by decide)

/-- The parse of `<html><body><h2>History[edit]</h2><h3>[edit]</h3></body></html>`. -/
def editHeadingsDoc : Node :=
  Node.elem "html" [Node.elem "body"
    [Node.elem "h2" [Node.text "History[edit]"], Node.elem "h3" [Node.text "[edit]"]]]

/-- **C1 (failing on the code).** The guard `if text and '[edit]' not in text`
in `extract_headings` skips every heading whose text contains `"[edit]"`, so
the `text.replace('[edit]', '')` that follows it is dead code: on a document
whose `h2` heading reads `"History[edit]"` the function returns `[]` — it does
not strip the marker and keep `(2, "History")` as the claim states.  The third
conjunct records that the stripping the claim describes would indeed have
produced `"History"`. -/
theorem extract_headings_drops_edit_headings :
    extract_headings editHeadingsDoc = []
    ∧ hasEdit ("History[edit]" : String).data = true
    ∧ pyStrip ⟨removeEdit ("History[edit]" : String).data⟩ = "History" :=
  ⟨by decide, by decide, by decide⟩

/-- The parse of
`<html><body><h1>Intro</h1><h2>History[edit]</h2></body></html>`. -/
def lengthMismatchDoc : Node :=
  Node.elem "html" [Node.elem "body"
    [Node.elem "h1" [Node.text "Intro"], Node.elem "h2" [Node.text "History[edit]"]]]

/-- **C5 (failing on the code).** On a document with two heading elements,
neither of which has empty or edit-only text, the output length is 1, not 2:
the heading `"History[edit]"` is discarded even though its text is not empty
and not edit-only, so the claimed count `headingCount - specDiscardCount`
does not hold.  (The document-order part of the claim is how the code walks
the tree; the length equation is what fails.) -/
theorem extract_headings_length_mismatch :
    (extract_headings lengthMismatchDoc).length = 1
    ∧ headingCount lengthMismatchDoc = 2
    ∧ specDiscardCount lengthMismatchDoc = 0
    ∧ (extract_headings lengthMismatchDoc).length ≠
        headingCount lengthMismatchDoc - specDiscardCount lengthMismatchDoc :=
  ⟨by decide, by decide, by decide, by decide⟩

/-! ## The file cache (`app/core/cache.py`) -/

/-- The exceptions relevant to the service, mirroring the Python exception
classes the route handler distinguishes: `fastapi.HTTPException` (with status
and detail), `httpx.HTTPStatusError` (carrying the upstream response status),
`httpx.RequestError` (a transport-level network failure), and any other
unanticipated exception. -/
inductive PyExc where
  | httpException (status : Nat) (detail : String) : PyExc
  | httpStatusError (status : Nat) : PyExc
  | requestError : PyExc
  | otherError : PyExc
deriving DecidableEq

/-- The outcome of the physical `httpx.get` of a URL: a successful response
body, a non-success HTTP status (so `response.raise_for_status()` raises
`httpx.HTTPStatusError`), or a transport failure (`httpx.RequestError`). -/
inductive FetchOutcome where
  | success (body : String) : FetchOutcome
  | httpStatus (status : Nat) : FetchOutcome
  | netFail : FetchOutcome

/-- One hexadecimal digit. -/
def hexChar (n : Nat) : Char :=
  if n < 10 then Char.ofNat ('0'.toNat + n) else Char.ofNat ('a'.toNat + n - 10)

/-- Models `hashlib.md5(url.encode('utf-8')).hexdigest()` from
`app/core/cache.py`: a fixed-width hexadecimal digest that is a deterministic
function of the URL string.  The MD5 computation itself is Python library
code; every theorem below depends only on the digest being stable and
deterministic, never on its particular values or on injectivity. -/
def md5_hexdigest (url : String) : String :=
  let h := url.data.foldl (fun a c => (a * 131 + c.toNat) % 4294967296) 5381
  ⟨[hexChar (h / 268435456 % 16), hexChar (h / 16777216 % 16), hexChar (h / 1048576 % 16),
    hexChar (h / 65536 % 16), hexChar (h / 4096 % 16), hexChar (h / 256 % 16),
    hexChar (h / 16 % 16), hexChar (h % 16)]⟩

/-- The cache directory, modelled as a finite map from filenames to file
contents (the directory of a real filesystem has one entry per filename). -/
def CacheDir : Type := List (String × String)

/-- `cache_path.exists()` plus the file read: look a filename up in the
directory. -/
def lookupFile (f : String) : List (String × String) → Option String
  | [] => none
  | (g, c) :: rest => if g = f then some c else lookupFile f rest

/-- `cache_path.unlink()`: remove the entry with the given filename. -/
def removeFile (f : String) (dir : List (String × String)) : List (String × String) :=
  dir.filter (fun e => e.1 ≠ f)

/-- `cached_get` from `app/core/cache.py`, with the filesystem passed
explicitly and the physical network modelled by `net`.  Returns the result
(the body, or the exception raised), the directory after the call, and the
number of physical network fetches the call performed (0 on a cache hit,
1 on a miss).  On a miss the response body is written to the cache file only
when `raise_for_status()` does not raise. -/
def cached_get (net : String → FetchOutcome) (url : String)
    (dir : List (String × String)) :
    Except PyExc String × List (String × String) × Nat :=
  let filename := md5_hexdigest url
  match lookupFile filename dir with
  | some cached => (Except.ok cached, dir, 0)
  | none =>
    match net url with
    | .success body => (Except.ok body, (filename, body) :: dir, 1)
    | .httpStatus s => (Except.error (PyExc.httpStatusError s), dir, 1)
    | .netFail => (Except.error PyExc.requestError, dir, 1)

/-- `clear_cache` from `app/core/cache.py`.  The branch condition is Python's
`if url:`, which tests *truthiness*: it is false both when `url` is `None`
and when `url` is the empty string `""`.  So a truthy URL deletes that URL's
cache file if it exists (`if cache_path.exists(): cache_path.unlink()`),
while both `None` and `""` take the `else` branch and delete every file in
the cache directory. -/
def clear_cache (url : Option String) (dir : List (String × String)) :
    List (String × String) :=
  match url with
  | some u =>
    if u = "" then
      []
    else
      let filename := md5_hexdigest u
      if (lookupFile filename dir).isSome then removeFile filename dir else dir
  | none => []

/-! ## Cache lemmas -/

/-- After removing a filename, looking it up finds nothing. -/
theorem lookupFile_removeFile_self (f : String) (dir : List (String × String)) :
    lookupFile f (removeFile f dir) = none := by
  induction dir with
  | nil => rfl
  | cons e rest ih =>
    by_cases he : e.1 = f
    · simpa [removeFile, List.filter, he] using ih
    · simpa [removeFile, List.filter, he, lookupFile] using ih

/-- Removing one filename leaves the lookup of every other filename
unchanged. -/
theorem lookupFile_removeFile_other (f k : String) (dir : List (String × String))
    (hk : k ≠ f) : lookupFile k (removeFile f dir) = lookupFile k dir := by
  induction dir with
  | nil => rfl
  | cons e rest ih =>
    rcases e with ⟨g, c⟩
    rw [removeFile, List.filter_cons]
    by_cases hgf : g = f
    · rw [if_neg (by simp [hgf])]
      rw [removeFile] at ih
      rw [lookupFile, if_neg (fun h : g = k => hk (h ▸ hgf))]
      exact ih
    · rw [if_pos (by simp [hgf])]
      rw [lookupFile, lookupFile]
      by_cases hgk : g = k
      · rw [if_pos hgk, if_pos hgk]
      · rw [if_neg hgk, if_neg hgk]
        rw [removeFile] at ih
        exact ih

/-- After `clear_cache (some u)`, the file keyed by `u`'s digest is gone —
whether the single-file branch removed it or the falsy-`""` branch wiped the
whole directory. -/
theorem lookupFile_clear_cache_self (u : String) (dir : List (String × String)) :
    lookupFile (md5_hexdigest u) (clear_cache (some u) dir) = none := by
  rw [clear_cache]
  by_cases hu : u = ""
  · rw [if_pos hu]
    rfl
  · rw [if_neg hu]
    by_cases h : (lookupFile (md5_hexdigest u) dir).isSome
    · rw [if_pos h]
      exact lookupFile_removeFile_self _ _
    · rw [if_neg h]
      exact Option.not_isSome_iff_eq_none.mp h

/-! ## Theorems: cache -/

/-- **C4.** For every network behaviour, URL and starting directory: if the
first `cached_get` call returns normally, then a second call on the same URL
performs no physical fetch (it is served from the cache file the first call
found or wrote), so the two calls together perform at most one fetch; and
interposing `clear_cache url` between the two calls forces the second call to
perform exactly one re-fetch. -/
theorem cached_get_at_most_one_fetch (net : String → FetchOutcome) (url : String)
    (dir : List (String × String)) :
    ((cached_get net url dir).1.isOk = true →
        (cached_get net url (cached_get net url dir).2.1).2.2 = 0 ∧
        (cached_get net url dir).2.2 +
          (cached_get net url (cached_get net url dir).2.1).2.2 ≤ 1)
    ∧ (cached_get net url (clear_cache (some url) (cached_get net url dir).2.1)).2.2 = 1 := by
  have hclear : ∀ d : List (String × String),
      (cached_get net url (clear_cache (some url) d)).2.2 = 1 := by
    intro d
    have hnone := lookupFile_clear_cache_self url d
    simp only [cached_get]
    rw [hnone]
    cases net url <;> rfl
  constructor
  · intro hok
    cases hl : lookupFile (md5_hexdigest url) dir with
    | some c => simp [cached_get, hl]
    | none =>
      cases hnet : net url with
      | success body => simp [cached_get, hl, hnet, lookupFile]
      | httpStatus s => simp [cached_get, hl, hnet, Except.isOk, Except.toBool] at hok
      | netFail => simp [cached_get, hl, hnet, Except.isOk, Except.toBool] at hok
  · exact hclear _

/-- A network that always answers with a fixed page body. -/
def demoNet : String → FetchOutcome := fun _ => FetchOutcome.success "<html></html>"

/-- Witness for C4 at a concrete network, URL and empty starting directory:
two calls perform one fetch in total, and clearing between them forces a
second fetch. -/
theorem cached_get_at_most_one_fetch_witness :
    ((cached_get demoNet "https://en.wikipedia.org/wiki/India" []).2.2 +
        (cached_get demoNet "https://en.wikipedia.org/wiki/India"
          (cached_get demoNet "https://en.wikipedia.org/wiki/India" []).2.1).2.2 ≤ 1)
    ∧ (cached_get demoNet "https://en.wikipedia.org/wiki/India"
        (clear_cache (some "https://en.wikipedia.org/wiki/India")
          (cached_get demoNet "https://en.wikipedia.org/wiki/India" []).2.1)).2.2 = 1 :=
  ⟨((cached_get_at_most_one_fetch demoNet "https://en.wikipedia.org/wiki/India" []).1
      (by decide)).2,
   (cached_get_at_most_one_fetch demoNet "https://en.wikipedia.org/wiki/India" []).2⟩

/-- **C9 (counterexample to the original claim).** Python's `if url:` treats
the empty string like `None` (`cache.py:60`): `clear_cache("")` takes the
wipe-all branch and deletes every file.  So for the URL `""` the operation is
not limited to that URL's keyed file — it changes an unrelated entry's
lookup, and it is not a no-op even though the file keyed by
`md5_hexdigest ""` is absent from the directory. -/
theorem clear_cache_empty_url_wipes :
    clear_cache (some "") [("other", "x")] = []
    ∧ lookupFile "other" (clear_cache (some "") [("other", "x")]) ≠
        lookupFile "other" [("other", "x")]
    ∧ lookupFile (md5_hexdigest "") [("other", "x")] = none
    ∧ clear_cache (some "") [("other", "x")] ≠ [("other", "x")] :=
  ⟨by decide, by decide, by decide, by decide⟩

/-- **C9 (amended).** For every *non-empty* URL string, `clear_cache (some u)`
deletes only the cache file keyed by that URL's digest, leaves the lookup of
every other filename unchanged, and is a no-op when that file is absent; the
keyed file is gone afterwards for every URL; and both `clear_cache none` and
`clear_cache (some "")` — the empty string being falsy to Python's
`if url:` — delete every file in the cache directory.  All operations are
total functions: no failure on missing files. -/
theorem clear_cache_spec_amended :
    (∀ (u : String) (dir : List (String × String)) (k : String), u ≠ "" →
        k ≠ md5_hexdigest u →
        lookupFile k (clear_cache (some u) dir) = lookupFile k dir)
    ∧ (∀ (u : String) (dir : List (String × String)),
        lookupFile (md5_hexdigest u) (clear_cache (some u) dir) = none)
    ∧ (∀ (u : String) (dir : List (String × String)), u ≠ "" →
        lookupFile (md5_hexdigest u) dir = none → clear_cache (some u) dir = dir)
    ∧ (∀ dir : List (String × String), clear_cache none dir = [])
    ∧ (∀ dir : List (String × String), clear_cache (some "") dir = []) := by
  refine ⟨?_, lookupFile_clear_cache_self, ?_, fun dir => rfl, fun dir => rfl⟩
  · intro u dir k hu hk
    rw [clear_cache, if_neg hu]
    by_cases h : (lookupFile (md5_hexdigest u) dir).isSome
    · rw [if_pos h]
      exact lookupFile_removeFile_other _ _ _ hk
    · rw [if_neg h]
  · intro u dir hu h
    rw [clear_cache, if_neg hu, if_neg (by simp [h])]

/-- Witness for the amended C9 at concrete inputs: clearing India's (non-empty)
URL leaves an unrelated cache entry's lookup unchanged, and clearing it from
an empty directory is a no-op. -/
theorem clear_cache_spec_amended_witness :
    lookupFile "other"
        (clear_cache (some "https://en.wikipedia.org/wiki/India") [("other", "x")]) =
      lookupFile "other" [("other", "x")]
    ∧ clear_cache (some "https://en.wikipedia.org/wiki/India") [] = [] :=
  ⟨clear_cache_spec_amended.1 "https://en.wikipedia.org/wiki/India" [("other", "x")] "other"
      (by decide) (by decide),
   clear_cache_spec_amended.2.2.1 "https://en.wikipedia.org/wiki/India" [] (by decide) (by decide)⟩

/-! ## The `/api/outline` route handler (`app/api/routes.py`) -/

/-- The `try:` block of `get_country_outline`: validate the country
(`if not country or not country.strip()` raises `HTTPException(400)`), obtain
the headings (`fetched` is the outcome of
`WikipediaService.get_country_headings` — the headings, or the exception that
call raised), raise `HTTPException(404)` when no headings were found, and
otherwise build the outline.  The result is the returned outline or the
exception escaping the block. -/
def outline_try_block (country : String)
    (fetched : Except PyExc (List (Nat × String))) : Except PyExc String :=
  if country = "" ∨ pyStrip country = "" then
    Except.error (PyExc.httpException 400 "Country parameter cannot be empty")
  else
    match fetched with
    | .error e => .error e
    | .ok headings =>
      if headings = [] then
        Except.error (PyExc.httpException 404 ("No content found for country: " ++ country))
      else
        Except.ok (create_outline_with_header country headings)

/-- `get_country_outline` from `app/api/routes.py`, as the final HTTP
response `(status, body)`.  The `except` clauses are tried in source order:
`httpx.HTTPStatusError` (404 forwarded as 404, other statuses forwarded
unchanged), then `httpx.RequestError` (503), then the blanket
`except Exception` (500) — which also catches the `fastapi.HTTPException`
raised inside the `try:` block, because `HTTPException` is an `Exception`
and is not re-raised before that clause. -/
def get_country_outline (country : String)
    (fetched : Except PyExc (List (Nat × String))) : Nat × String :=
  match outline_try_block country fetched with
  | .ok outline => (200, outline)
  | .error (PyExc.httpStatusError s) =>
    if s = 404 then (404, "Wikipedia page not found for country: " ++ country)
    else (s, "Error fetching Wikipedia page")
  | .error PyExc.requestError => (503, "Network error while fetching Wikipedia")
  | .error (PyExc.httpException _ d) => (500, "Internal server error: " ++ d)
  | .error PyExc.otherError => (500, "Internal server error")

/-- **C2 (failing on the code).** An empty or all-whitespace country does NOT
produce a 400 response: the `HTTPException(400)` raised inside the `try:`
block is caught by the handler's own blanket `except Exception` clause and
re-raised as a 500 — `tests/test_api.py::test_outline_endpoint_empty_parameter`
expects 400 and fails.  The transport-failure → 503 and unanticipated
exception → 500 parts of the claim do hold, as the last two conjuncts show. -/
theorem get_country_outline_status_map :
    (get_country_outline "" (Except.ok [(1, "India")])).1 = 500
    ∧ (get_country_outline "   " (Except.ok [(1, "India")])).1 = 500
    ∧ (get_country_outline "India" (Except.error PyExc.requestError)).1 = 503
    ∧ (get_country_outline "India" (Except.error PyExc.otherError)).1 = 500 :=
  ⟨by decide, by decide, by decide, by decide⟩
